import Mathlib

set_option maxHeartbeats 1000000

/- Shallow embedding of the wayfreeze client (src/main.rs).

   The mutable `AppData` struct is mirrored field by field; wayland protocol
   objects are abstracted to their presence (Unit values) or their numeric
   payloads, since the claims concern control flow, map bookkeeping and the
   requests the client sends.  Every request the handlers issue to the server
   is recorded as a `Req` value, in source order.  Rust panics (HashMap index
   on an absent key, Vec index out of bounds, unsupported pixel format) are
   modelled as `Except.error`. -/

/-- Requests the client sends to the wayland server, tagged with the output
index they concern.  Each constructor corresponds to one request call site in
src/main.rs. -/
inductive Req
  | ackConfigure (i : Int) (serial : Nat)
  | commit (i : Int)
  | attach (i : Int)
  | setBufferScale (i : Int) (k : Int)
  | setBufferTransform (i : Int) (t : Int)
  | destroyLayerSurface (i : Int)
  | createBuffer (i : Int) (off w h stride : Int)
  | copy (i : Int)
  | getXdgOutput (i : Int)
  | createSurface (i : Int)
  | setSource (i : Int) (x y w h : Int)
  | setDestination (i : Int) (w h : Int)
  | setSize (i : Int) (w h : Int)
  | createPool (i : Int) (size : Int)
  | captureOutput (i : Int) (cursor : Bool)
  | getLayerSurface (i : Int)
  | setAnchor (i : Int)
  | setExclusiveZone (i : Int) (z : Int)
  | setKeyboardInteractivity (i : Int)
  | getViewport (i : Int)
  | getFractionalScale (i : Int)
  | runCmd (c : String)
  deriving DecidableEq

/-- Events delivered by the server to the per-object Dispatch handlers.
`keymapEv` carries the compiled keymap as a resolution function from keycode
to keysym (the xkb compilation step is external to the client). -/
inductive Ev
  | mode (i w h : Int)
  | geometry (i tr : Int)
  | logicalSize (i w h : Int)
  | configure (i : Int) (serial : Nat)
  | closed (i : Int)
  | preferredScale (i scale : Int)
  | scBuffer (i : Int) (fmtOk : Bool) (w h stride : Int)
  | bufferDone (i : Int)
  | ready (i : Int)
  | failed (i : Int)
  | keymapEv (fmtOk : Bool) (km : Nat → Nat)
  | key (code : Nat) (pressed : Bool)
  | button (released : Bool)
  | globalRemove (name : Nat)

/-- Lookup in an association list, modelling HashMap::get / the Index
operator of std HashMap (which panics when the key is absent; that panic is
modelled at the call sites). -/
def hm_get {α : Type} : List (Int × α) → Int → Option α
  | [], _ => none
  | (k, v) :: rest, key => if key = k then some v else hm_get rest key

/-- Insert-or-replace, modelling HashMap::insert.  Replacing an existing key
keeps the length; a new key appends. -/
def hm_insert {α : Type} : List (Int × α) → Int → α → List (Int × α)
  | [], key, v => [(key, v)]
  | (k, v') :: rest, key, v =>
    if key = k then (key, v) :: rest else (k, v') :: hm_insert rest key v

/-- The helper `vec_insert` of src/main.rs: insert into an optional HashMap,
creating the map when it does not exist yet. -/
def vec_insert {α : Type} (m : Option (List (Int × α))) (key : Int) (v : α) :
    Option (List (Int × α)) :=
  match m with
  | some hm => some (hm_insert hm key v)
  | none => some [(key, v)]

/-- i32 two-complement wraparound, for the pool size arithmetic which the
source performs on i32. -/
def wrap32 (n : Int) : Int := (n + 2147483648) % 4294967296 - 2147483648

/-- Panic message for an absent HashMap key (std HashMap Index panic). -/
def panicMsg : String := "key not found"

/-- Panic message for a Vec index out of bounds. -/
def panicIdxMsg : String := "index out of bounds"

/-- Panic message of the expect call on an unsupported pixel format. -/
def panicFmtMsg : String := "Unsupported format"

/-- Keysym number of Escape (XKB_KEY_Escape). -/
def escapeKeysym : Nat := 0xff1b

/-- The AppData state struct of src/main.rs.  Capability handles keep only
their registry name (the u32 paired with the proxy in the source); per-output
maps keep the payload the claims need, or Unit for pure object handles. -/
structure AppData where
  compositor : Option Nat := none
  seat : Option Nat := none
  shm : Option Nat := none
  fs_manager : Option Nat := none
  viewporter : Option Nat := none
  screencopy_manager : Option Nat := none
  layer_shell : Option Nat := none
  xdg_output_manager : Option Nat := none
  outputs : Option (List Unit) := none
  surfaces : Option (List (Int × Unit)) := none
  widths : Option (List (Int × Int)) := none
  heights : Option (List (Int × Int)) := none
  phys_widths : Option (List (Int × Int)) := none
  phys_heights : Option (List (Int × Int)) := none
  transforms : Option (List (Int × Int)) := none
  scales : Option (List (Int × Int)) := none
  viewports : Option (List (Int × Unit)) := none
  shm_pools : Option (List (Int × Unit)) := none
  buffers : Option (List (Int × Unit)) := none
  layer_surfaces : Option (List (Int × Unit)) := none
  screencopy_frames : Option (List (Int × Unit)) := none
  configured_surfaces : List (Int × Nat) := []
  context : Option Unit := none
  kbstate : Option (Nat → Nat) := none
  hide_cursor : Bool := false
  before_cmd : String := ""
  after_cmd : String := ""
  frames_ready : Int := 0
  outputs_ready : Int := 0
  output_count : Int := 0
  exit : Bool := false

/-- The all-default AppData, as produced by AppData::default(). -/
def base : AppData := {}

/-- Handler for wl_output::Event::Mode: record the physical width and height
of the output. -/
def handleMode (s : AppData) (i w h : Int) : Except String (AppData × List Req) :=
  Except.ok ({ s with phys_widths := vec_insert s.phys_widths i w,
                      phys_heights := vec_insert s.phys_heights i h }, [])

/-- Handler for wl_output::Event::Geometry: record the transform, then (if
the managers are bound) request an xdg output and create the surface for this
output.  The transform is recorded even when a manager is missing, matching
the early returns of the source. -/
def handleGeometry (s : AppData) (i tr : Int) : Except String (AppData × List Req) :=
  let s1 : AppData := { s with transforms := vec_insert s.transforms i tr }
  match s.xdg_output_manager with
  | none => Except.ok (s1, [])
  | some _ =>
    match s.compositor with
    | none => Except.ok (s1, [Req.getXdgOutput i])
    | some _ =>
      Except.ok ({ s1 with surfaces := vec_insert s1.surfaces i () },
        [Req.getXdgOutput i, Req.createSurface i])

/-- Handler for zxdg_output_v1::Event::LogicalSize: record the logical width
and height and increment the outputs_ready counter (unconditionally, as in
the source). -/
def handleLogicalSize (s : AppData) (i w h : Int) : Except String (AppData × List Req) :=
  Except.ok ({ s with widths := vec_insert s.widths i w,
                      heights := vec_insert s.heights i h,
                      outputs_ready := s.outputs_ready + 1 }, [])

/-- Handler for zwlr_layer_surface_v1::Event::Configure: acknowledge the
configure unconditionally; if this surface was already configured, return;
otherwise commit, attach the captured buffer, set buffer scale and transform,
commit again, and record the surface as configured. -/
def handleConfigure (s : AppData) (i : Int) (serial : Nat) :
    Except String (AppData × List Req) :=
  if (hm_get s.configured_surfaces i).isSome then
    Except.ok (s, [Req.ackConfigure i serial])
  else
    match s.surfaces with
    | none => Except.ok (s, [Req.ackConfigure i serial])
    | some surfs =>
      match s.buffers with
      | none => Except.ok (s, [Req.ackConfigure i serial])
      | some bufs =>
        match s.transforms with
        | none => Except.ok (s, [Req.ackConfigure i serial])
        | some trs =>
          match hm_get surfs i with
          | none => Except.error panicMsg
          | some _ =>
            match hm_get bufs i with
            | none => Except.error panicMsg
            | some _ =>
              match hm_get trs i with
              | none => Except.error panicMsg
              | some tr =>
                Except.ok
                  ({ s with configured_surfaces := hm_insert s.configured_surfaces i serial },
                   [Req.ackConfigure i serial, Req.commit i, Req.attach i,
                    Req.setBufferScale i 1, Req.setBufferTransform i tr, Req.commit i])

/-- Handler for zwlr_layer_surface_v1::Event::Closed: destroy the layer
surface. -/
def handleClosed (s : AppData) (i : Int) : Except String (AppData × List Req) :=
  Except.ok (s, [Req.destroyLayerSurface i])

/-- The duplicate-scale guard at the top of the PreferredScale handler,
verbatim from the source: when the scales map exists and the output index is
below the NUMBER OF ENTRIES of the map, look the previous scale up with the
panicking Index operator and compare. `.ok true` means the handler returns
early (same scale as before). -/
def scaleGuard (s : AppData) (i scale : Int) : Except String Bool :=
  match s.scales with
  | none => Except.ok false
  | some scs =>
    if i < (scs.length : Int) then
      match hm_get scs i with
      | none => Except.error panicMsg
      | some prev => Except.ok (prev = scale)
    else Except.ok false

/-- Handler for wp_fractional_scale_v1::Event::PreferredScale: run the
duplicate guard; otherwise, after the map presence checks, set the viewport
source rectangle to the unset sentinel (-1, -1, -1, -1), set the destination
to the logical width and height, resize the layer surface, commit, and record
the scale. -/
def handlePreferredScale (s : AppData) (i scale : Int) :
    Except String (AppData × List Req) :=
  match scaleGuard s i scale with
  | Except.error m => Except.error m
  | Except.ok true => Except.ok (s, [])
  | Except.ok false =>
    match s.surfaces with
    | none => Except.ok (s, [])
    | some surfs =>
      match s.layer_surfaces with
      | none => Except.ok (s, [])
      | some lsurfs =>
        match s.viewports with
        | none => Except.ok (s, [])
        | some vps =>
          match s.widths with
          | none => Except.ok (s, [])
          | some ws =>
            match s.heights with
            | none => Except.ok (s, [])
            | some hs =>
              match hm_get ws i with
              | none => Except.error panicMsg
              | some w =>
                match hm_get hs i with
                | none => Except.error panicMsg
                | some h =>
                  match hm_get vps i with
                  | none => Except.error panicMsg
                  | some _ =>
                    match hm_get lsurfs i with
                    | none => Except.error panicMsg
                    | some _ =>
                      match hm_get surfs i with
                      | none => Except.error panicMsg
                      | some _ =>
                        Except.ok
                          ({ s with scales := vec_insert s.scales i scale },
                           [Req.setSource i (-1) (-1) (-1) (-1),
                            Req.setDestination i w h,
                            Req.setSize i w h, Req.commit i])

/-- Handler for zwlr_screencopy_frame_v1::Event::Buffer: create a buffer from
the pool of this output at offset 0, passing the server-reported width,
height and stride verbatim; an unsupported format panics. -/
def handleScBuffer (s : AppData) (i : Int) (fmtOk : Bool) (w h stride : Int) :
    Except String (AppData × List Req) :=
  match s.shm_pools with
  | none => Except.ok (s, [])
  | some pools =>
    match hm_get pools i with
    | none => Except.error panicMsg
    | some _ =>
      if fmtOk then
        Except.ok ({ s with buffers := vec_insert s.buffers i () },
          [Req.createBuffer i 0 w h stride])
      else Except.error panicFmtMsg

/-- Handler for zwlr_screencopy_frame_v1::Event::BufferDone: submit the copy
of the frame into the buffer of this output. -/
def handleBufferDone (s : AppData) (i : Int) : Except String (AppData × List Req) :=
  match s.buffers with
  | none => Except.ok (s, [])
  | some bufs =>
    match hm_get bufs i with
    | none => Except.error panicMsg
    | some _ => Except.ok (s, [Req.copy i])

/-- Handler for zwlr_screencopy_frame_v1::Event::Ready: increment the
frames_ready counter (unconditionally, as in the source); the buffer is NOT
attached here. -/
def handleReady (s : AppData) (_i : Int) : Except String (AppData × List Req) :=
  Except.ok ({ s with frames_ready := s.frames_ready + 1 }, [])

/-- Handler for zwlr_screencopy_frame_v1::Event::Failed: set the exit flag. -/
def handleFailed (s : AppData) (_i : Int) : Except String (AppData × List Req) :=
  Except.ok ({ s with exit := true }, [])

/-- Handler for wl_keyboard::Event::Keymap: compile the keymap (modelled as a
given keycode-to-keysym function) into the keyboard state. -/
def handleKeymap (s : AppData) (fmtOk : Bool) (km : Nat → Nat) :
    Except String (AppData × List Req) :=
  if fmtOk then
    match s.context with
    | none => Except.ok (s, [])
    | some _ => Except.ok ({ s with kbstate := some km }, [])
  else Except.ok (s, [])

/-- Handler for wl_keyboard::Event::Key: only key presses are considered; the
keycode offset by 8 is resolved through the keyboard state and Escape sets
the exit flag. -/
def handleKey (s : AppData) (code : Nat) (pressed : Bool) :
    Except String (AppData × List Req) :=
  if pressed then
    match s.kbstate with
    | none => Except.ok (s, [])
    | some km =>
      if km (code + 8) = escapeKeysym then Except.ok ({ s with exit := true }, [])
      else Except.ok (s, [])
  else Except.ok (s, [])

/-- Handler for wl_pointer::Event::Button: any button release sets the exit
flag; presses are ignored. -/
def handleButton (s : AppData) (released : Bool) : Except String (AppData × List Req) :=
  if released then Except.ok ({ s with exit := true }, [])
  else Except.ok (s, [])

/-- Handler for wl_registry::Event::GlobalRemove, verbatim from the source:
an if-let ELSE-if-let chain, so a capability later in the chain is only
examined when every earlier capability is unbound. -/
def handleGlobalRemove (s : AppData) (name : Nat) : AppData :=
  match s.compositor with
  | some cname => if name = cname then { s with compositor := none } else s
  | none =>
    match s.seat with
    | some sname => if name = sname then { s with seat := none } else s
    | none =>
      match s.shm with
      | some hname => if name = hname then { s with shm := none } else s
      | none =>
        match s.fs_manager with
        | some fname => if name = fname then { s with fs_manager := none } else s
        | none =>
          match s.viewporter with
          | some vname => if name = vname then { s with viewporter := none } else s
          | none =>
            match s.screencopy_manager with
            | some scname => if name = scname then { s with screencopy_manager := none } else s
            | none =>
              match s.layer_shell with
              | some lname => if name = lname then { s with layer_shell := none } else s
              | none => s

/-- Dispatch of one decoded event to the handler of its object kind. -/
def dispatchEvent (s : AppData) : Ev → Except String (AppData × List Req)
  | Ev.mode i w h => handleMode s i w h
  | Ev.geometry i tr => handleGeometry s i tr
  | Ev.logicalSize i w h => handleLogicalSize s i w h
  | Ev.configure i serial => handleConfigure s i serial
  | Ev.closed i => handleClosed s i
  | Ev.preferredScale i scale => handlePreferredScale s i scale
  | Ev.scBuffer i fmtOk w h stride => handleScBuffer s i fmtOk w h stride
  | Ev.bufferDone i => handleBufferDone s i
  | Ev.ready i => handleReady s i
  | Ev.failed i => handleFailed s i
  | Ev.keymapEv fmtOk km => handleKeymap s fmtOk km
  | Ev.key code pressed => handleKey s code pressed
  | Ev.button released => handleButton s released
  | Ev.globalRemove name => Except.ok (handleGlobalRemove s name, [])

/-- Dispatch of one batch of events, as one blocking_dispatch call does:
handlers run synchronously in order; a panic aborts. -/
def dispatchBatch (s : AppData) : List Ev → Except String (AppData × List Req)
  | [] => Except.ok (s, [])
  | e :: t =>
    match dispatchEvent s e with
    | Except.error m => Except.error m
    | Except.ok (s1, r1) =>
      match dispatchBatch s1 t with
      | Except.error m => Except.error m
      | Except.ok (s2, r2) => Except.ok (s2, r1 ++ r2)

/-- Outcome of a freeze run: normal process exit with a status, normal return
of freeze (main then exits with status 0), a run that blocks forever on the
event stream, or a panic. -/
inductive RunResult
  | exited (code : Nat) (reqs : List Req)
  | returnedOk (reqs : List Req)
  | stalled (reqs : List Req)
  | panicked (m : String) (reqs : List Req)
  deriving DecidableEq

/-- The requests a run had sent at its end. -/
def reqsOfR : RunResult → List Req
  | RunResult.exited _ r => r
  | RunResult.returnedOk r => r
  | RunResult.stalled r => r
  | RunResult.panicked _ r => r

/-- Process exit status of a run outcome: the explicit status on exit, 0 when
freeze returns and main returns Ok, none for a stall or a panic abort. -/
def exitCode : RunResult → Option Nat
  | RunResult.exited c _ => some c
  | RunResult.returnedOk _ => some 0
  | _ => none

/-- A loop of blocking_dispatch calls that checks a condition AFTER each
dispatch (the dispatch-then-check loops of freeze).  The schedule is the list
of event batches the server delivers; an exhausted schedule stalls. -/
def dispatchUntil (done : AppData → Bool) :
    AppData → List Req → List (List Ev) →
      Sum RunResult (AppData × List Req × List (List Ev))
  | _, acc, [] => Sum.inl (RunResult.stalled acc)
  | s, acc, b :: rest =>
    match dispatchBatch s b with
    | Except.error m => Sum.inl (RunResult.panicked m acc)
    | Except.ok (s', r) =>
      if done s' then Sum.inr (s', acc ++ r, rest)
      else dispatchUntil done s' (acc ++ r) rest

/-- A while loop that checks its condition BEFORE each dispatch (the
configured-surfaces wait loop of freeze). -/
def waitWhile (done : AppData → Bool) :
    AppData → List Req → List (List Ev) →
      Sum RunResult (AppData × List Req × List (List Ev))
  | s, acc, [] => if done s then Sum.inr (s, acc, []) else Sum.inl (RunResult.stalled acc)
  | s, acc, b :: rest =>
    if done s then Sum.inr (s, acc, b :: rest)
    else
      match dispatchBatch s b with
      | Except.error m => Sum.inl (RunResult.panicked m acc)
      | Except.ok (s', r) => waitWhile done s' (acc ++ r) rest

/-- The terminal loop of freeze: dispatch, then terminate the process with
status 0 the moment the exit flag is set. -/
def termLoop : AppData → List Req → List (List Ev) → RunResult
  | _, acc, [] => RunResult.stalled acc
  | s, acc, b :: rest =>
    match dispatchBatch s b with
    | Except.error m => RunResult.panicked m acc
    | Except.ok (s', r) =>
      if s'.exit then RunResult.exited 0 (acc ++ r)
      else termLoop s' (acc ++ r) rest

/-- Result of one iteration of a per-output for-loop body in freeze: proceed
with updated state and emitted requests, return Ok(()) from freeze, or
panic. -/
inductive StepOut
  | stepOk (s : AppData) (r : List Req)
  | stepRet
  | stepPanic (m : String)

/-- Result of a whole per-output for-loop. -/
inductive PhaseOut
  | cont (s : AppData) (acc : List Req)
  | ret (acc : List Req)
  | panicOut (m : String) (acc : List Req)

/-- Run a per-output body over a list of output indices. -/
def phaseLoop (f : AppData → Int → StepOut) :
    AppData → List Req → List Int → PhaseOut
  | s, acc, [] => PhaseOut.cont s acc
  | s, acc, i :: rest =>
    match f s i with
    | StepOut.stepOk s' r => phaseLoop f s' (acc ++ r) rest
    | StepOut.stepRet => PhaseOut.ret acc
    | StepOut.stepPanic m => PhaseOut.panicOut m acc

/-- The indices 0..n-1 of the outputs vector. -/
def idxList (n : Nat) : List Int := (List.range n).map (fun k => (k : Int))

/-- One iteration of the capture loop of freeze: after the presence checks,
create the shm pool sized phys_height * phys_width * 4 (i32 arithmetic) and
request the capture of this output, then record the frame and pool. -/
def captureOne (s : AppData) (i : Int) : StepOut :=
  match s.outputs with
  | none => StepOut.stepRet
  | some _ =>
    match s.screencopy_manager with
    | none => StepOut.stepRet
    | some _ =>
      match s.shm with
      | none => StepOut.stepRet
      | some _ =>
        match s.phys_widths with
        | none => StepOut.stepRet
        | some pw =>
          match s.phys_heights with
          | none => StepOut.stepRet
          | some ph =>
            match hm_get ph i with
            | none => StepOut.stepPanic panicMsg
            | some h =>
              match hm_get pw i with
              | none => StepOut.stepPanic panicMsg
              | some w =>
                StepOut.stepOk
                  { s with screencopy_frames := vec_insert s.screencopy_frames i (),
                           shm_pools := vec_insert s.shm_pools i () }
                  [Req.createPool i (wrap32 (h * w * 4)),
                   Req.captureOutput i (!s.hide_cursor)]

/-- One iteration of the layer-surface creation loop of freeze. -/
def lsOne (s : AppData) (i : Int) : StepOut :=
  match s.surfaces with
  | none => StepOut.stepRet
  | some surfs =>
    match s.layer_shell with
    | none => StepOut.stepRet
    | some _ =>
      match s.outputs with
      | none => StepOut.stepRet
      | some outs =>
        if i.toNat < outs.length then
          match hm_get surfs i with
          | none => StepOut.stepPanic panicMsg
          | some _ =>
            StepOut.stepOk { s with layer_surfaces := vec_insert s.layer_surfaces i () }
              [Req.getLayerSurface i, Req.setAnchor i, Req.setExclusiveZone i (-1),
               Req.setKeyboardInteractivity i]
        else StepOut.stepPanic panicIdxMsg

/-- One iteration of the surface commit / viewport / fractional-scale loop of
freeze: the first commit of each surface (no buffer attached yet), then the
viewport and the fractional-scale subscription. -/
def vpOne (s : AppData) (i : Int) : StepOut :=
  match s.surfaces with
  | none => StepOut.stepRet
  | some surfs =>
    match hm_get surfs i with
    | none => StepOut.stepPanic panicMsg
    | some _ =>
      match s.viewporter with
      | none => StepOut.stepRet
      | some _ =>
        match s.fs_manager with
        | none => StepOut.stepRet
        | some _ =>
          StepOut.stepOk { s with viewports := vec_insert s.viewports i () }
            [Req.commit i, Req.getViewport i, Req.getFractionalScale i]

/-- Start of freeze: set output_count from the outputs vector, or log and set
the exit flag when no output was discovered; reset the two counters. -/
def freezeInit (s0 : AppData) : AppData :=
  match s0.outputs with
  | some v => { s0 with output_count := (v.length : Int), outputs_ready := 0, frames_ready := 0 }
  | none => { s0 with exit := true, outputs_ready := 0, frames_ready := 0 }

/-- Condition of the geometry wait loop. -/
def geomDone (s : AppData) : Bool := s.outputs_ready == s.output_count

/-- Condition of the frames wait loop. -/
def framesDone (s : AppData) : Bool := s.frames_ready == s.output_count

/-- Condition of the configured-surfaces wait loop. -/
def cfgDone (s : AppData) : Bool := (s.configured_surfaces.length : Int) == s.output_count

/-- Spawn of the before-freeze command when it is non-empty. -/
def withBeforeCmd (s : AppData) (acc : List Req) : List Req :=
  if s.before_cmd = "" then acc else acc ++ [Req.runCmd s.before_cmd]

/-- Spawn of the after-freeze command when it is non-empty. -/
def withAfterCmd (s : AppData) (acc : List Req) : List Req :=
  if s.after_cmd = "" then acc else acc ++ [Req.runCmd s.after_cmd]

/-- Phase 3 of freeze: layer-surface creation, surface commits with viewport
and fractional-scale setup, the configured wait loop, the after command, and
the terminal loop. -/
def freezePhase3 (s : AppData) (acc : List Req) (sched : List (List Ev)) : RunResult :=
  match s.outputs with
  | none => RunResult.returnedOk acc
  | some outs =>
    match phaseLoop lsOne s acc (idxList outs.length) with
    | PhaseOut.panicOut m a => RunResult.panicked m a
    | PhaseOut.ret a => RunResult.returnedOk a
    | PhaseOut.cont s1 acc1 =>
      match phaseLoop vpOne s1 acc1 (idxList outs.length) with
      | PhaseOut.panicOut m a => RunResult.panicked m a
      | PhaseOut.ret a => RunResult.returnedOk a
      | PhaseOut.cont s2 acc2 =>
        match waitWhile cfgDone s2 acc2 sched with
        | Sum.inl res => res
        | Sum.inr (s3, acc3, rest3) => termLoop s3 (withAfterCmd s3 acc3) rest3

/-- Phase 2 of freeze: the capture loop over all outputs, the frames wait
loop and the before command. -/
def freezePhase2 (s : AppData) (acc : List Req) (sched : List (List Ev)) : RunResult :=
  match s.outputs with
  | none => RunResult.returnedOk acc
  | some outs =>
    match phaseLoop captureOne s acc (idxList outs.length) with
    | PhaseOut.panicOut m a => RunResult.panicked m a
    | PhaseOut.ret a => RunResult.returnedOk a
    | PhaseOut.cont s1 acc1 =>
      match dispatchUntil framesDone s1 acc1 sched with
      | Sum.inl res => res
      | Sum.inr (s2, acc2, rest2) => freezePhase3 s2 (withBeforeCmd s2 acc2) rest2

/-- The freeze method of ScreenFreezer: initialisation, one unconditional
blocking dispatch, the geometry wait loop, then phases 2 and 3. -/
def freeze (s0 : AppData) (sched : List (List Ev)) : RunResult :=
  match sched with
  | [] => RunResult.stalled []
  | b :: rest =>
    match dispatchBatch (freezeInit s0) b with
    | Except.error m => RunResult.panicked m []
    | Except.ok (s1, r0) =>
      match dispatchUntil geomDone s1 r0 rest with
      | Sum.inl res => res
      | Sum.inr (s2, acc, rest2) => freezePhase2 s2 acc rest2

/-- Boolean membership in a list of indices. -/
def memInt (i : Int) : List Int → Bool
  | [] => false
  | j :: t => i == j || memInt i t

/-- Scanner deciding that every buffer attach in a request stream is preceded
by a configure acknowledgement for the same surface. -/
def guardedAux (acked : List Int) : List Req → Bool
  | [] => true
  | Req.ackConfigure i _ :: rest => guardedAux (i :: acked) rest
  | Req.attach i :: rest => memInt i acked && guardedAux acked rest
  | _ :: rest => guardedAux acked rest

/-- The surfaces acknowledged in a request stream, newest first, on top of a
starting list. -/
def ackAccum (acked : List Int) : List Req → List Int
  | [] => acked
  | Req.ackConfigure i _ :: rest => ackAccum (i :: acked) rest
  | _ :: rest => ackAccum acked rest

/-- Number of configure acknowledgements for surface i in a request list. -/
def ackCount (i : Int) (l : List Req) : Nat :=
  l.countP (fun q => match q with | Req.ackConfigure j _ => j == i | _ => false)

/-- Number of commits of surface i in a request list. -/
def commitCount (i : Int) (l : List Req) : Nat :=
  l.countP (fun q => match q with | Req.commit j => j == i | _ => false)

/-- Number of layer-surface resize requests for output i in a request list. -/
def setSizeCount (i : Int) (l : List Req) : Nat :=
  l.countP (fun q => match q with | Req.setSize j _ _ => j == i | _ => false)

/-- No capture request occurs in a request list. -/
def noCapture (l : List Req) : Prop := ∀ i c, ¬ (Req.captureOutput i c ∈ l)

/-- Contribution of one event to the outputs_ready counter. -/
def evLogical : Ev → Int
  | Ev.logicalSize _ _ _ => 1
  | _ => 0

/-- Contribution of one event to the frames_ready counter. -/
def evReady : Ev → Int
  | Ev.ready _ => 1
  | _ => 0

/-- Number of LogicalSize events in a trace. -/
def countLogical : List Ev → Int
  | [] => 0
  | e :: t => evLogical e + countLogical t

/-- Number of Ready events in a trace. -/
def countReady : List Ev → Int
  | [] => 0
  | e :: t => evReady e + countReady t

/-- Declared byte extent of a created wl_shm buffer: stride times height
(wl_shm semantics of the create_buffer arguments). -/
def reqDeclaredSize : Req → Option Int
  | Req.createBuffer _ _ _ h stride => some (stride * h)
  | _ => none

/-- State with surface, buffer and transform present for output 0 and the
surface not yet configured. -/
def c1state : AppData :=
  { surfaces := some [(0, ())], buffers := some [(0, ())], transforms := some [(0, 0)] }

/-- State whose surface 0 is already configured (serial 1). -/
def c1wstate : AppData := { configured_surfaces := [(0, 1)] }

/-- State with presentation objects for output index 1 only and no recorded
scales. -/
def c2state : AppData :=
  { surfaces := some [(1, ())], layer_surfaces := some [(1, ())],
    viewports := some [(1, ())], widths := some [(1, 1920)], heights := some [(1, 1080)] }

/-- State with surface and transform for output 0 but no buffers map. -/
def c3state : AppData := { surfaces := some [(0, ())], transforms := some [(0, 0)] }

/-- State with surface, buffer and transform for output 0. -/
def c3wstate : AppData :=
  { surfaces := some [(0, ())], buffers := some [(0, ())], transforms := some [(0, 7)] }

/-- State ready for the capture loop on output 0 with physical size 1920 x 1080. -/
def c4wstate : AppData :=
  { outputs := some [()], screencopy_manager := some 3, shm := some 4,
    phys_widths := some [(0, 1920)], phys_heights := some [(0, 1080)] }

/-- State with a shm pool for output 0. -/
def c4w2state : AppData := { shm_pools := some [(0, ())] }

/-- State with presentation objects and logical size 1920 x 1080 for output 0. -/
def c6state : AppData :=
  { surfaces := some [(0, ())], layer_surfaces := some [(0, ())],
    viewports := some [(0, ())], widths := some [(0, 1920)], heights := some [(0, 1080)] }

/-- State with the compositor bound under registry name 1 and the seat bound
under registry name 2. -/
def c7state : AppData := { compositor := some 1, seat := some 2 }

/-- A keymap resolving every keycode to Escape. -/
def kmEsc : Nat → Nat := fun _ => escapeKeysym

/-- State with a compiled keyboard state. -/
def c8state : AppData := { kbstate := some kmEsc }

/-- State with the exit flag set. -/
def c8estate : AppData := { exit := true }

/-- State with one discovered output. -/
def c9state : AppData := { output_count := 1 }

/-- State whose scales map holds exactly one entry, for output 1. -/
def c10state : AppData := { scales := some [(1, 120)] }

/-- The requests of a successful batch dispatch. -/
def batchReqs (s : AppData) (evs : List Ev) : Option (List Req) :=
  match dispatchBatch s evs with
  | Except.ok p => some p.2
  | Except.error _ => none

/-- The outputs_ready and output_count counters after a successful batch. -/
def batchCounters (s : AppData) (evs : List Ev) : Option (Int × Int) :=
  match dispatchBatch s evs with
  | Except.ok p => some (p.1.outputs_ready, p.1.output_count)
  | Except.error _ => none

/-- The configured_surfaces map after a successful batch. -/
def batchConfigured (s : AppData) (evs : List Ev) : Option (List (Int × Nat)) :=
  match dispatchBatch s evs with
  | Except.ok p => some p.1.configured_surfaces
  | Except.error _ => none

/-- The key list of an association-list map. -/
def keysOf {α : Type} (m : List (Int × α)) : List Int := m.map Prod.fst

/-- Validity of the configured-surfaces map for an output count n: its keys
are distinct and all lie in 0..n-1 (the indices of created layer surfaces).
At freeze start the map is empty, so the invariant holds trivially. -/
def cfgInv (m : List (Int × Nat)) (n : Int) : Prop :=
  (keysOf m).Nodup ∧ ∀ k ∈ keysOf m, 0 ≤ k ∧ k < n

/-- A configure event carries an index of a created layer surface: its index
lies in 0..n-1.  Non-configure events are unconstrained. -/
def evCfgOk (n : Int) : Ev → Bool
  | Ev.configure i _ => decide (0 ≤ i) && decide (i < n)
  | _ => true

/-- Every configure event of a trace targets a created layer surface. -/
def cfgIdxBounded (evs : List Ev) (n : Int) : Prop :=
  ∀ e ∈ evs, evCfgOk n e = true

/-- State ready for a successful configure of output 0, with one discovered
output. -/
def c9bstate : AppData :=
  { surfaces := some [(0, ())], buffers := some [(0, ())], transforms := some [(0, 0)],
    output_count := 1 }

/-- The state c9bstate after the configure of output 0 is recorded. -/
def c9b2state : AppData := { c9bstate with configured_surfaces := [(0, 5)] }

/- ------------------------------------------------------------------ -/
/- Helper lemmas.                                                      -/
/- ------------------------------------------------------------------ -/

theorem wrap32_eq {n : Int} (h0 : 0 ≤ n) (h1 : n < 2147483648) : wrap32 n = n := by
  unfold wrap32
  omega

theorem length_le_hm_insert {α : Type} (m : List (Int × α)) (k : Int) (v : α) :
    m.length ≤ (hm_insert m k v).length := by
  induction m with
  | nil => simp [hm_insert]
  | cons p t ih =>
      obtain ⟨k', v'⟩ := p
      simp only [hm_insert]
      split
      · simp
      · simpa using Nat.succ_le_succ ih

theorem noCapture_nil : noCapture ([] : List Req) := by
  intro i c hc
  simp at hc

theorem noCapture_append {l1 l2 : List Req} (h1 : noCapture l1) (h2 : noCapture l2) :
    noCapture (l1 ++ l2) := by
  intro i c hc
  rcases List.mem_append.mp hc with hc | hc
  · exact h1 i c hc
  · exact h2 i c hc

theorem guardedAux_append (a : List Int) (l1 l2 : List Req) :
    guardedAux a (l1 ++ l2) = (guardedAux a l1 && guardedAux (ackAccum a l1) l2) := by
  induction l1 generalizing a with
  | nil => simp [guardedAux, ackAccum]
  | cons q t ih => cases q <;> simp [guardedAux, ackAccum, ih, Bool.and_assoc]

theorem handleGlobalRemove_frame (s : AppData) (name : Nat) :
    (handleGlobalRemove s name).outputs = s.outputs ∧
    (handleGlobalRemove s name).exit = s.exit ∧
    (handleGlobalRemove s name).outputs_ready = s.outputs_ready ∧
    (handleGlobalRemove s name).frames_ready = s.frames_ready ∧
    (handleGlobalRemove s name).configured_surfaces = s.configured_surfaces ∧
    (handleGlobalRemove s name).output_count = s.output_count := by
  unfold handleGlobalRemove
  repeat' split
  all_goals simp

theorem step_facts {s s' : AppData} {r : List Req} {ev : Ev}
    (h : dispatchEvent s ev = Except.ok (s', r)) :
    s'.outputs = s.outputs ∧
    (s.exit = true → s'.exit = true) ∧
    s'.outputs_ready = s.outputs_ready + evLogical ev ∧
    s'.frames_ready = s.frames_ready + evReady ev ∧
    s.configured_surfaces.length ≤ s'.configured_surfaces.length ∧
    noCapture r ∧
    (∀ a, guardedAux a r = true) := by
  cases ev with
  | globalRemove name =>
      simp only [dispatchEvent, Except.ok.injEq, Prod.mk.injEq] at h
      obtain ⟨rfl, rfl⟩ := h
      obtain ⟨h1, h2, h3, h4, h5, _⟩ := handleGlobalRemove_frame s name
      refine ⟨h1, ?_, ?_, ?_, ?_, ?_, ?_⟩
      · intro hx; rw [h2]; exact hx
      · rw [h3]; simp [evLogical]
      · rw [h4]; simp [evReady]
      · rw [h5]
      · exact noCapture_nil
      · intro a; simp [guardedAux]
  | configure i serial =>
      simp only [dispatchEvent, handleConfigure] at h
      repeat' split at h
      all_goals try exact Except.noConfusion h
      all_goals simp only [Except.ok.injEq, Prod.mk.injEq] at h
      all_goals obtain ⟨rfl, rfl⟩ := h
      all_goals
        refine ⟨rfl, by simp, by simp [evLogical], by simp [evReady], ?_, ?_, ?_⟩
      all_goals try (first | exact Nat.le_refl _ | exact length_le_hm_insert _ _ _)
      all_goals try (intro j c hc; simp at hc)
      all_goals intro a; simp [guardedAux, memInt]
  | preferredScale i scale =>
      simp only [dispatchEvent, handlePreferredScale] at h
      repeat' split at h
      all_goals try exact Except.noConfusion h
      all_goals simp only [Except.ok.injEq, Prod.mk.injEq] at h
      all_goals obtain ⟨rfl, rfl⟩ := h
      all_goals
        refine ⟨rfl, by simp, by simp [evLogical], by simp [evReady], Nat.le_refl _, ?_, ?_⟩
      all_goals try (intro j c hc; simp at hc)
      all_goals intro a; simp [guardedAux, memInt]
  | scBuffer i fmtOk w h stride =>
      simp only [dispatchEvent, handleScBuffer] at h
      repeat' split at h
      all_goals try exact Except.noConfusion h
      all_goals simp only [Except.ok.injEq, Prod.mk.injEq] at h
      all_goals obtain ⟨rfl, rfl⟩ := h
      all_goals
        refine ⟨rfl, by simp, by simp [evLogical], by simp [evReady], Nat.le_refl _, ?_, ?_⟩
      all_goals try (intro j c hc; simp at hc)
      all_goals intro a; simp [guardedAux]
  | bufferDone i =>
      simp only [dispatchEvent, handleBufferDone] at h
      repeat' split at h
      all_goals try exact Except.noConfusion h
      all_goals simp only [Except.ok.injEq, Prod.mk.injEq] at h
      all_goals obtain ⟨rfl, rfl⟩ := h
      all_goals
        refine ⟨rfl, by simp, by simp [evLogical], by simp [evReady], Nat.le_refl _, ?_, ?_⟩
      all_goals try (intro j c hc; simp at hc)
      all_goals intro a; simp [guardedAux]
  | geometry i tr =>
      simp only [dispatchEvent, handleGeometry] at h
      repeat' split at h
      all_goals simp only [Except.ok.injEq, Prod.mk.injEq] at h
      all_goals obtain ⟨rfl, rfl⟩ := h
      all_goals
        refine ⟨rfl, by simp, by simp [evLogical], by simp [evReady], Nat.le_refl _, ?_, ?_⟩
      all_goals try (intro j c hc; simp at hc)
      all_goals intro a; simp [guardedAux]
  | keymapEv fmtOk km =>
      simp only [dispatchEvent, handleKeymap] at h
      repeat' split at h
      all_goals simp only [Except.ok.injEq, Prod.mk.injEq] at h
      all_goals obtain ⟨rfl, rfl⟩ := h
      all_goals
        refine ⟨rfl, by simp, by simp [evLogical], by simp [evReady], Nat.le_refl _, noCapture_nil, ?_⟩
      all_goals intro a; simp [guardedAux]
  | key code pressed =>
      simp only [dispatchEvent, handleKey] at h
      repeat' split at h
      all_goals simp only [Except.ok.injEq, Prod.mk.injEq] at h
      all_goals obtain ⟨rfl, rfl⟩ := h
      all_goals
        refine ⟨rfl, by simp, by simp [evLogical], by simp [evReady], Nat.le_refl _, noCapture_nil, ?_⟩
      all_goals intro a; simp [guardedAux]
  | button released =>
      simp only [dispatchEvent, handleButton] at h
      repeat' split at h
      all_goals simp only [Except.ok.injEq, Prod.mk.injEq] at h
      all_goals obtain ⟨rfl, rfl⟩ := h
      all_goals
        refine ⟨rfl, by simp, by simp [evLogical], by simp [evReady], Nat.le_refl _, noCapture_nil, ?_⟩
      all_goals intro a; simp [guardedAux]
  | mode i w h =>
      simp only [dispatchEvent, handleMode, Except.ok.injEq, Prod.mk.injEq] at h
      obtain ⟨rfl, rfl⟩ := h
      refine ⟨rfl, by simp, by simp [evLogical], by simp [evReady], Nat.le_refl _, noCapture_nil, ?_⟩
      intro a; simp [guardedAux]
  | logicalSize i w h =>
      simp only [dispatchEvent, handleLogicalSize, Except.ok.injEq, Prod.mk.injEq] at h
      obtain ⟨rfl, rfl⟩ := h
      refine ⟨rfl, by simp, by simp [evLogical], by simp [evReady], Nat.le_refl _, noCapture_nil, ?_⟩
      intro a; simp [guardedAux]
  | closed i =>
      simp only [dispatchEvent, handleClosed, Except.ok.injEq, Prod.mk.injEq] at h
      obtain ⟨rfl, rfl⟩ := h
      refine ⟨rfl, by simp, by simp [evLogical], by simp [evReady], Nat.le_refl _, ?_, ?_⟩
      · intro j c hc; simp at hc
      · intro a; simp [guardedAux]
  | ready i =>
      simp only [dispatchEvent, handleReady, Except.ok.injEq, Prod.mk.injEq] at h
      obtain ⟨rfl, rfl⟩ := h
      refine ⟨rfl, by simp, by simp [evLogical], by simp [evReady], Nat.le_refl _, noCapture_nil, ?_⟩
      intro a; simp [guardedAux]
  | failed i =>
      simp only [dispatchEvent, handleFailed, Except.ok.injEq, Prod.mk.injEq] at h
      obtain ⟨rfl, rfl⟩ := h
      refine ⟨rfl, by simp, by simp [evLogical], by simp [evReady], Nat.le_refl _, noCapture_nil, ?_⟩
      intro a; simp [guardedAux]

theorem countLogical_nonneg (evs : List Ev) : 0 ≤ countLogical evs := by
  induction evs with
  | nil => simp [countLogical]
  | cons e t ih =>
      have he : 0 ≤ evLogical e := by cases e <;> simp [evLogical]
      simp only [countLogical]
      omega

theorem countReady_nonneg (evs : List Ev) : 0 ≤ countReady evs := by
  induction evs with
  | nil => simp [countReady]
  | cons e t ih =>
      have he : 0 ≤ evReady e := by cases e <;> simp [evReady]
      simp only [countReady]
      omega

theorem batch_facts : ∀ (evs : List Ev) (s s' : AppData) (r : List Req),
    dispatchBatch s evs = Except.ok (s', r) →
    s'.outputs = s.outputs ∧
    (s.exit = true → s'.exit = true) ∧
    s'.outputs_ready = s.outputs_ready + countLogical evs ∧
    s'.frames_ready = s.frames_ready + countReady evs ∧
    s.configured_surfaces.length ≤ s'.configured_surfaces.length ∧
    noCapture r ∧
    (∀ a, guardedAux a r = true) := by
  intro evs
  induction evs with
  | nil =>
      intro s s' r h
      simp only [dispatchBatch, Except.ok.injEq, Prod.mk.injEq] at h
      obtain ⟨rfl, rfl⟩ := h
      exact ⟨rfl, fun hx => hx, by simp [countLogical], by simp [countReady],
        Nat.le_refl _, noCapture_nil, by intro a; simp [guardedAux]⟩
  | cons e t ih =>
      intro s s' r h
      simp only [dispatchBatch] at h
      rcases he : dispatchEvent s e with m | ⟨s1, r1⟩
      · simp only [he] at h
        exact Except.noConfusion h
      · simp only [he] at h
        rcases ht : dispatchBatch s1 t with m | ⟨s2, r2⟩
        · simp only [ht] at h
          exact Except.noConfusion h
        · simp only [ht, Except.ok.injEq, Prod.mk.injEq] at h
          obtain ⟨rfl, rfl⟩ := h
          obtain ⟨e1, e2, e3, e4, e5, e6, e7⟩ := step_facts he
          obtain ⟨t1, t2, t3, t4, t5, t6, t7⟩ := ih s1 s2 r2 ht
          refine ⟨by rw [t1, e1], fun hx => t2 (e2 hx), ?_, ?_, le_trans e5 t5,
            noCapture_append e6 t6, ?_⟩
          · rw [t3, e3]; simp only [countLogical]; omega
          · rw [t4, e4]; simp only [countReady]; omega
          · intro a
            rw [guardedAux_append, e7 a, t7 (ackAccum a r1)]
            rfl

theorem dispatchUntil_none (done : AppData → Bool) :
    ∀ (sched : List (List Ev)) (s : AppData) (acc : List Req),
      s.outputs = none → noCapture acc →
      ((∀ res, dispatchUntil done s acc sched = Sum.inl res →
          noCapture (reqsOfR res) ∧
          (exitCode res = none ∨ exitCode res = some 0)) ∧
       (∀ s' acc' rest, dispatchUntil done s acc sched = Sum.inr (s', acc', rest) →
          s'.outputs = none ∧ noCapture acc')) := by
  intro sched
  induction sched with
  | nil =>
      intro s acc hout hacc
      constructor
      · intro res hres
        simp only [dispatchUntil, Sum.inl.injEq] at hres
        subst hres
        exact ⟨hacc, Or.inl rfl⟩
      · intro s' acc' rest hres
        simp only [dispatchUntil] at hres
        exact Sum.noConfusion hres
  | cons b rest ih =>
      intro s acc hout hacc
      constructor
      · intro res hres
        simp only [dispatchUntil] at hres
        rcases hb : dispatchBatch s b with m | ⟨s1, r1⟩
        · simp only [hb, Sum.inl.injEq] at hres
          subst hres
          exact ⟨hacc, Or.inl rfl⟩
        · simp only [hb] at hres
          obtain ⟨b1, _, _, _, _, b6, _⟩ := batch_facts b s s1 r1 hb
          have hs1 : s1.outputs = none := by rw [b1, hout]
          by_cases hd : done s1 = true
          · simp only [hd, if_true] at hres
            exact Sum.noConfusion hres
          · simp only [hd, if_false] at hres
            exact (ih s1 (acc ++ r1) hs1 (noCapture_append hacc b6)).1 res hres
      · intro s' acc' rest' hres
        simp only [dispatchUntil] at hres
        rcases hb : dispatchBatch s b with m | ⟨s1, r1⟩
        · simp only [hb] at hres
          exact Sum.noConfusion hres
        · simp only [hb] at hres
          obtain ⟨b1, _, _, _, _, b6, _⟩ := batch_facts b s s1 r1 hb
          have hs1 : s1.outputs = none := by rw [b1, hout]
          by_cases hd : done s1 = true
          · simp only [hd, if_true, Sum.inr.injEq, Prod.mk.injEq] at hres
            obtain ⟨rfl, rfl, rfl⟩ := hres
            exact ⟨hs1, noCapture_append hacc b6⟩
          · simp only [hd, if_false] at hres
            exact (ih s1 (acc ++ r1) hs1 (noCapture_append hacc b6)).2 s' acc' rest' hres

theorem hm_get_none_not_mem {α : Type} (m : List (Int × α)) (i : Int)
    (h : hm_get m i = none) : i ∉ keysOf m := by
  induction m with
  | nil => simp [keysOf]
  | cons p t ih =>
      obtain ⟨k, v⟩ := p
      by_cases hik : i = k
      · simp [hm_get, hik] at h
      · have h' : hm_get t i = none := by simpa [hm_get, hik] using h
        simp only [keysOf, List.map_cons, List.mem_cons]
        rintro (rfl | hmem)
        · exact hik rfl
        · exact ih h' (by simpa [keysOf] using hmem)

theorem hm_insert_absent {α : Type} (m : List (Int × α)) (i : Int) (v : α)
    (h : hm_get m i = none) : hm_insert m i v = m ++ [(i, v)] := by
  induction m with
  | nil => rfl
  | cons p t ih =>
      obtain ⟨k, v'⟩ := p
      by_cases hik : i = k
      · simp [hm_get, hik] at h
      · have h' : hm_get t i = none := by simpa [hm_get, hik] using h
        simp [hm_insert, hik, ih h']

theorem cfgInv_insert {m : List (Int × Nat)} {n i : Int} {v : Nat}
    (hinv : cfgInv m n) (hget : hm_get m i = none) (h0 : 0 ≤ i) (h1 : i < n) :
    cfgInv (hm_insert m i v) n := by
  rw [hm_insert_absent m i v hget]
  obtain ⟨hnd, hbd⟩ := hinv
  constructor
  · simp only [keysOf, List.map_append]
    refine List.Nodup.append hnd (by simp) ?_
    intro a ha hb
    simp only [List.map_cons, List.map_nil, List.mem_singleton] at hb
    subst hb
    exact hm_get_none_not_mem m a hget (by simpa [keysOf] using ha)
  · intro k hk
    simp only [keysOf, List.map_append, List.map_cons, List.map_nil] at hk
    rcases List.mem_append.mp hk with hk | hk
    · exact hbd k (by simpa [keysOf] using hk)
    · simp only [List.mem_singleton] at hk
      subst hk
      exact ⟨h0, h1⟩

theorem cfgInv_length_le {m : List (Int × Nat)} {n : Int}
    (hinv : cfgInv m n) (hn : 0 ≤ n) : (m.length : Int) ≤ n := by
  obtain ⟨hnd, hbd⟩ := hinv
  have hmap : ((keysOf m).map Int.toNat).Nodup := by
    refine List.Nodup.map_on ?_ hnd
    intro x hx y hy hxy
    have hx0 := (hbd x hx).1
    have hy0 := (hbd y hy).1
    omega
  have hlt : ∀ a ∈ (keysOf m).map Int.toNat, a < n.toNat := by
    intro a ha
    rcases List.mem_map.mp ha with ⟨x, hx, rfl⟩
    have hb := hbd x hx
    omega
  have hsub : ((keysOf m).map Int.toNat).toFinset ⊆ Finset.range n.toNat := by
    intro a ha
    rw [List.mem_toFinset] at ha
    exact Finset.mem_range.mpr (hlt a ha)
  have hcard := Finset.card_le_card hsub
  rw [List.toFinset_card_of_nodup hmap, Finset.card_range] at hcard
  have hlen1 : ((keysOf m).map Int.toNat).length = (keysOf m).length := by simp
  have hlen2 : (keysOf m).length = m.length := by simp [keysOf]
  omega

theorem step_cfg {s s' : AppData} {r : List Req} {ev : Ev}
    (h : dispatchEvent s ev = Except.ok (s', r)) :
    s'.output_count = s.output_count ∧
    (s'.configured_surfaces = s.configured_surfaces ∨
     ∃ i n, ev = Ev.configure i n ∧ hm_get s.configured_surfaces i = none ∧
            s'.configured_surfaces = hm_insert s.configured_surfaces i n) := by
  cases ev with
  | configure i serial =>
      simp only [dispatchEvent, handleConfigure] at h
      by_cases hc : (hm_get s.configured_surfaces i).isSome = true
      · rw [if_pos hc] at h
        simp only [Except.ok.injEq, Prod.mk.injEq] at h
        obtain ⟨rfl, rfl⟩ := h
        exact ⟨rfl, Or.inl rfl⟩
      · rw [if_neg hc] at h
        have hnone : hm_get s.configured_surfaces i = none :=
          Option.not_isSome_iff_eq_none.mp hc
        repeat' split at h
        all_goals try exact Except.noConfusion h
        all_goals simp only [Except.ok.injEq, Prod.mk.injEq] at h
        all_goals obtain ⟨rfl, rfl⟩ := h
        all_goals refine ⟨rfl, ?_⟩
        all_goals try exact Or.inl rfl
        exact Or.inr ⟨i, serial, rfl, hnone, rfl⟩
  | globalRemove name =>
      simp only [dispatchEvent, Except.ok.injEq, Prod.mk.injEq] at h
      obtain ⟨rfl, rfl⟩ := h
      obtain ⟨_, _, _, _, h5, h6⟩ := handleGlobalRemove_frame s name
      exact ⟨h6, Or.inl h5⟩
  | geometry i tr =>
      simp only [dispatchEvent, handleGeometry] at h
      repeat' split at h
      all_goals simp only [Except.ok.injEq, Prod.mk.injEq] at h
      all_goals obtain ⟨rfl, rfl⟩ := h
      all_goals exact ⟨rfl, Or.inl rfl⟩
  | preferredScale i scale =>
      simp only [dispatchEvent, handlePreferredScale] at h
      repeat' split at h
      all_goals try exact Except.noConfusion h
      all_goals simp only [Except.ok.injEq, Prod.mk.injEq] at h
      all_goals obtain ⟨rfl, rfl⟩ := h
      all_goals exact ⟨rfl, Or.inl rfl⟩
  | scBuffer i fmtOk w h' stride =>
      simp only [dispatchEvent, handleScBuffer] at h
      repeat' split at h
      all_goals try exact Except.noConfusion h
      all_goals simp only [Except.ok.injEq, Prod.mk.injEq] at h
      all_goals obtain ⟨rfl, rfl⟩ := h
      all_goals exact ⟨rfl, Or.inl rfl⟩
  | bufferDone i =>
      simp only [dispatchEvent, handleBufferDone] at h
      repeat' split at h
      all_goals try exact Except.noConfusion h
      all_goals simp only [Except.ok.injEq, Prod.mk.injEq] at h
      all_goals obtain ⟨rfl, rfl⟩ := h
      all_goals exact ⟨rfl, Or.inl rfl⟩
  | keymapEv fmtOk km =>
      simp only [dispatchEvent, handleKeymap] at h
      repeat' split at h
      all_goals simp only [Except.ok.injEq, Prod.mk.injEq] at h
      all_goals obtain ⟨rfl, rfl⟩ := h
      all_goals exact ⟨rfl, Or.inl rfl⟩
  | key code pressed =>
      simp only [dispatchEvent, handleKey] at h
      repeat' split at h
      all_goals simp only [Except.ok.injEq, Prod.mk.injEq] at h
      all_goals obtain ⟨rfl, rfl⟩ := h
      all_goals exact ⟨rfl, Or.inl rfl⟩
  | button released =>
      simp only [dispatchEvent, handleButton] at h
      repeat' split at h
      all_goals simp only [Except.ok.injEq, Prod.mk.injEq] at h
      all_goals obtain ⟨rfl, rfl⟩ := h
      all_goals exact ⟨rfl, Or.inl rfl⟩
  | mode i w h' =>
      simp only [dispatchEvent, handleMode, Except.ok.injEq, Prod.mk.injEq] at h
      obtain ⟨rfl, rfl⟩ := h
      exact ⟨rfl, Or.inl rfl⟩
  | logicalSize i w h' =>
      simp only [dispatchEvent, handleLogicalSize, Except.ok.injEq, Prod.mk.injEq] at h
      obtain ⟨rfl, rfl⟩ := h
      exact ⟨rfl, Or.inl rfl⟩
  | closed i =>
      simp only [dispatchEvent, handleClosed, Except.ok.injEq, Prod.mk.injEq] at h
      obtain ⟨rfl, rfl⟩ := h
      exact ⟨rfl, Or.inl rfl⟩
  | ready i =>
      simp only [dispatchEvent, handleReady, Except.ok.injEq, Prod.mk.injEq] at h
      obtain ⟨rfl, rfl⟩ := h
      exact ⟨rfl, Or.inl rfl⟩
  | failed i =>
      simp only [dispatchEvent, handleFailed, Except.ok.injEq, Prod.mk.injEq] at h
      obtain ⟨rfl, rfl⟩ := h
      exact ⟨rfl, Or.inl rfl⟩

theorem batch_cfg : ∀ (evs : List Ev) (s s' : AppData) (r : List Req),
    dispatchBatch s evs = Except.ok (s', r) →
    s'.output_count = s.output_count ∧
    (cfgInv s.configured_surfaces s.output_count →
     cfgIdxBounded evs s.output_count →
     cfgInv s'.configured_surfaces s.output_count) := by
  intro evs
  induction evs with
  | nil =>
      intro s s' r h
      simp only [dispatchBatch, Except.ok.injEq, Prod.mk.injEq] at h
      obtain ⟨rfl, rfl⟩ := h
      exact ⟨rfl, fun hi _ => hi⟩
  | cons e t ih =>
      intro s s' r h
      simp only [dispatchBatch] at h
      rcases he : dispatchEvent s e with m | ⟨s1, r1⟩
      · simp only [he] at h
        exact Except.noConfusion h
      · simp only [he] at h
        rcases ht : dispatchBatch s1 t with m | ⟨s2, r2⟩
        · simp only [ht] at h
          exact Except.noConfusion h
        · simp only [ht, Except.ok.injEq, Prod.mk.injEq] at h
          obtain ⟨rfl, rfl⟩ := h
          obtain ⟨e1, e2⟩ := step_cfg he
          obtain ⟨t1, t2⟩ := ih s1 s2 r2 ht
          refine ⟨by rw [t1, e1], ?_⟩
          intro hinv hbd
          have hbd1 : cfgIdxBounded t s1.output_count := by
            rw [e1]
            intro x hx
            exact hbd x (List.mem_cons_of_mem e hx)
          have hinv1 : cfgInv s1.configured_surfaces s1.output_count := by
            rw [e1]
            rcases e2 with hsame | ⟨i, n, rfl, hget, hins⟩
            · rw [hsame]; exact hinv
            · rw [hins]
              have hok := hbd (Ev.configure i n) (List.mem_cons_self _ _)
              simp only [evCfgOk, Bool.and_eq_true, decide_eq_true_eq] at hok
              exact cfgInv_insert hinv hget hok.1 hok.2
          have hfin := t2 hinv1 hbd1
          rw [e1] at hfin
          exact hfin

/- ------------------------------------------------------------------ -/
/- Claim theorems.                                                     -/
/- ------------------------------------------------------------------ -/

/-- Claim C1 (amended): EVERY configure event for a surface is acknowledged,
so a later configure for an already-configured surface is acknowledged again,
though it changes no state and triggers no attach or commit; and in every
dispatched trace a buffer attach for a surface is preceded by a configure
acknowledgement for that same surface, so no buffer-carrying commit is
observable before the acknowledgement. -/
theorem c1_configure_ack_ordering :
    (∀ (s : AppData) (i : Int) (n : Nat),
        (hm_get s.configured_surfaces i).isSome →
        dispatchEvent s (Ev.configure i n) = Except.ok (s, [Req.ackConfigure i n])) ∧
    (∀ (evs : List Ev) (s s' : AppData) (r : List Req),
        dispatchBatch s evs = Except.ok (s', r) → guardedAux [] r = true) := by
  constructor
  · intro s i n hc
    simp [dispatchEvent, handleConfigure, hc]
  · intro evs s s' r h
    exact (batch_facts evs s s' r h).2.2.2.2.2.2 []

/-- Witness for C1: surface 0 of c1wstate is already configured and the
duplicate configure is acknowledged again; the attach guard holds on the
trace of one Closed event. -/
theorem c1_witness :
    dispatchEvent c1wstate (Ev.configure 0 2) =
      Except.ok (c1wstate, [Req.ackConfigure 0 2]) ∧
    guardedAux [] ([Req.destroyLayerSurface 0] ++ []) = true :=
  ⟨c1_configure_ack_ordering.1 c1wstate 0 2 rfl,
   c1_configure_ack_ordering.2 [Ev.closed 0] base base
     ([Req.destroyLayerSurface 0] ++ []) rfl⟩

/-- Counterexample for C1 as stated: a run delivering two configure events
for surface 0 sends TWO configure acknowledgements for that surface (the
source acknowledges before the already-configured check). -/
theorem c1_counterexample :
    batchReqs c1state [Ev.configure 0 1, Ev.configure 0 2] =
      some [Req.ackConfigure 0 1, Req.commit 0, Req.attach 0, Req.setBufferScale 0 1,
            Req.setBufferTransform 0 0, Req.commit 0, Req.ackConfigure 0 2] ∧
    ackCount 0 [Req.ackConfigure 0 1, Req.commit 0, Req.attach 0, Req.setBufferScale 0 1,
            Req.setBufferTransform 0 0, Req.commit 0, Req.ackConfigure 0 2] = 2 := by
  constructor
  · decide
  · decide

/-- Claim C2: two consecutive PreferredScale events for output 1 carrying the
identical value 120, handled in a state where output 1 is the only output
with presentation objects and no scale was recorded yet, BOTH produce the
full viewport update, resize and commit: the size-based duplicate guard
(index < number of recorded entries) does not fire for index 1 when only one
entry exists, so the second identical event repeats the resize/commit, against
the stated idempotence. -/
theorem c2_duplicate_scale_recommit :
    batchReqs c2state [Ev.preferredScale 1 120, Ev.preferredScale 1 120] =
      some [Req.setSource 1 (-1) (-1) (-1) (-1), Req.setDestination 1 1920 1080,
            Req.setSize 1 1920 1080, Req.commit 1,
            Req.setSource 1 (-1) (-1) (-1) (-1), Req.setDestination 1 1920 1080,
            Req.setSize 1 1920 1080, Req.commit 1] ∧
    commitCount 1 [Req.setSource 1 (-1) (-1) (-1) (-1), Req.setDestination 1 1920 1080,
            Req.setSize 1 1920 1080, Req.commit 1,
            Req.setSource 1 (-1) (-1) (-1) (-1), Req.setDestination 1 1920 1080,
            Req.setSize 1 1920 1080, Req.commit 1] = 2 := by
  constructor
  · decide
  · decide

/-- Claim C10: the size-based guard admits a lookup of an absent key.  With
the scales map holding exactly the entry for output 1, a PreferredScale event
for output 0 passes the guard (0 < 1 entry) and the indexed lookup of the
absent key 0 panics. -/
theorem c10_scale_guard_panic :
    dispatchEvent c10state (Ev.preferredScale 0 120) = Except.error panicMsg := rfl

/-- Claim C3 (amended): when a configure for surface i is handled with the
buffer present and the surface unconfigured, the attach-and-commit happens in
that handler; when it is handled while the buffers map does not exist, the
handler only acknowledges, does NOT mark the surface configured, and nothing
is deferred: the Ready handler of capture readiness never attaches, it only
increments the frames_ready counter. -/
theorem c3_defer_attach :
    (∀ (s : AppData) (i : Int) (n : Nat) (surfs bufs : List (Int × Unit))
        (trs : List (Int × Int)) (tr : Int),
        hm_get s.configured_surfaces i = none →
        s.surfaces = some surfs → s.buffers = some bufs → s.transforms = some trs →
        hm_get surfs i = some () → hm_get bufs i = some () → hm_get trs i = some tr →
        dispatchEvent s (Ev.configure i n) =
          Except.ok ({ s with configured_surfaces := hm_insert s.configured_surfaces i n },
            [Req.ackConfigure i n, Req.commit i, Req.attach i, Req.setBufferScale i 1,
             Req.setBufferTransform i tr, Req.commit i])) ∧
    (∀ (s : AppData) (i : Int) (n : Nat) (surfs : List (Int × Unit)),
        hm_get s.configured_surfaces i = none → s.surfaces = some surfs →
        s.buffers = none →
        dispatchEvent s (Ev.configure i n) = Except.ok (s, [Req.ackConfigure i n])) ∧
    (∀ (s : AppData) (i : Int),
        dispatchEvent s (Ev.ready i) =
          Except.ok ({ s with frames_ready := s.frames_ready + 1 }, [])) := by
  refine ⟨?_, ?_, ?_⟩
  · intro s i n surfs bufs trs tr hc hs hb ht hgs hgb hgt
    simp [dispatchEvent, handleConfigure, hc, hs, hb, ht, hgs, hgb, hgt]
  · intro s i n surfs hc hs hb
    simp [dispatchEvent, handleConfigure, hc, hs, hb]
  · intro s i
    rfl

/-- Witness for C3: the configure of surface 0 with buffer present attaches
and commits; the configure of surface 0 without a buffers map only
acknowledges; the Ready event only counts. -/
theorem c3_witness :
    dispatchEvent c3wstate (Ev.configure 0 3) =
      Except.ok ({ c3wstate with
                     configured_surfaces := hm_insert c3wstate.configured_surfaces 0 3 },
        [Req.ackConfigure 0 3, Req.commit 0, Req.attach 0, Req.setBufferScale 0 1,
         Req.setBufferTransform 0 7, Req.commit 0]) ∧
    dispatchEvent c3state (Ev.configure 0 4) = Except.ok (c3state, [Req.ackConfigure 0 4]) ∧
    dispatchEvent base (Ev.ready 0) =
      Except.ok ({ base with frames_ready := base.frames_ready + 1 }, []) :=
  ⟨c3_defer_attach.1 c3wstate 0 3 [(0, ())] [(0, ())] [(0, 7)] 7 rfl rfl rfl rfl rfl rfl rfl,
   c3_defer_attach.2.1 c3state 0 4 [(0, ())] rfl rfl rfl,
   c3_defer_attach.2.2 base 0⟩

/-- Counterexample for C3 as stated: in a state where no buffers map exists,
a configure for surface 0 followed by its capture readiness produces only the
acknowledgement - no attach, no commit - and the surface is never marked
configured, so the attach-and-commit is not merely deferred, it never
happens from the Ready event. -/
theorem c3_counterexample :
    batchReqs c3state [Ev.configure 0 5, Ev.ready 0] = some [Req.ackConfigure 0 5] ∧
    batchConfigured c3state [Ev.configure 0 5, Ev.ready 0] = some [] := by
  constructor
  · decide
  · decide

/-- Claim C4: the shm pool for an output with physical size W x H is created
with exactly H * W * 4 = W * H * 4 bytes (i32 arithmetic, exact within i32
range), and the buffer created on a capture Buffer event is carved at offset
0 with the server-reported width, height and stride verbatim - the stride is
never recomputed - giving the declared wl_shm extent stride * height. -/
theorem c4_pool_and_buffer_sizing :
    (∀ (s : AppData) (i w h : Int) (pw ph : List (Int × Int)) (u : List Unit) (a b : Nat),
        s.outputs = some u → s.screencopy_manager = some a → s.shm = some b →
        s.phys_widths = some pw → s.phys_heights = some ph →
        hm_get pw i = some w → hm_get ph i = some h →
        0 ≤ h * w * 4 → h * w * 4 < 2147483648 →
        captureOne s i =
          StepOut.stepOk
            { s with screencopy_frames := vec_insert s.screencopy_frames i (),
                     shm_pools := vec_insert s.shm_pools i () }
            [Req.createPool i (w * h * 4), Req.captureOutput i (!s.hide_cursor)]) ∧
    (∀ (s : AppData) (i w h stride : Int) (pools : List (Int × Unit)),
        s.shm_pools = some pools → hm_get pools i = some () →
        dispatchEvent s (Ev.scBuffer i true w h stride) =
          Except.ok ({ s with buffers := vec_insert s.buffers i () },
            [Req.createBuffer i 0 w h stride]) ∧
        reqDeclaredSize (Req.createBuffer i 0 w h stride) = some (stride * h)) := by
  constructor
  · intro s i w h pw ph u a b ho hsc hshm hpw hph hgw hgh hnn hlt
    simp only [captureOne, ho, hsc, hshm, hpw, hph, hgw, hgh]
    rw [wrap32_eq hnn hlt, Int.mul_comm h w]
  · intro s i w h stride pools hp hg
    refine ⟨?_, rfl⟩
    simp [dispatchEvent, handleScBuffer, hp, hg]

/-- Witness for C4 at a 1920 x 1080 output: the pool request carries
1920 * 1080 * 4 bytes, and a Buffer event with stride 7744 (not 1920 * 4) is
passed through verbatim with declared extent 7744 * 1080. -/
theorem c4_witness :
    captureOne c4wstate 0 =
      StepOut.stepOk
        { c4wstate with screencopy_frames := vec_insert c4wstate.screencopy_frames 0 (),
                        shm_pools := vec_insert c4wstate.shm_pools 0 () }
        [Req.createPool 0 (1920 * 1080 * 4), Req.captureOutput 0 (!c4wstate.hide_cursor)] ∧
    (dispatchEvent c4w2state (Ev.scBuffer 0 true 1920 1080 7744) =
        Except.ok ({ c4w2state with buffers := vec_insert c4w2state.buffers 0 () },
          [Req.createBuffer 0 0 1920 1080 7744]) ∧
      reqDeclaredSize (Req.createBuffer 0 0 1920 1080 7744) = some (7744 * 1080)) :=
  ⟨c4_pool_and_buffer_sizing.1 c4wstate 0 1920 1080 [(0, 1920)] [(0, 1080)] [()] 3 4
      rfl rfl rfl rfl rfl rfl rfl (by decide) (by decide),
   c4_pool_and_buffer_sizing.2 c4w2state 0 1920 1080 7744 [(0, ())] rfl rfl⟩

/-- Claim C5 (amended): with zero outputs discovered, freeze performs its
initial dispatch rounds and returns normally BEFORE any capture request is
issued; the resulting process exit status is 0 (freeze returns Ok and main
returns Ok), not non-zero, for every event schedule. -/
theorem c5_zero_outputs (s0 : AppData) (sched : List (List Ev)) (hout : s0.outputs = none) :
    noCapture (reqsOfR (freeze s0 sched)) ∧
    (exitCode (freeze s0 sched) = none ∨ exitCode (freeze s0 sched) = some 0) := by
  have hinit : (freezeInit s0).outputs = none := by
    simp [freezeInit, hout]
  cases sched with
  | nil =>
      have hfz : freeze s0 [] = RunResult.stalled [] := rfl
      rw [hfz]
      exact ⟨noCapture_nil, Or.inl rfl⟩
  | cons b rest =>
      rcases hdb : dispatchBatch (freezeInit s0) b with m | ⟨s1, r0⟩
      · have hfz : freeze s0 (b :: rest) = RunResult.panicked m [] := by
          simp only [freeze, hdb]
        rw [hfz]
        exact ⟨noCapture_nil, Or.inl rfl⟩
      · obtain ⟨b1, _, _, _, _, b6, _⟩ := batch_facts b (freezeInit s0) s1 r0 hdb
        have hs1 : s1.outputs = none := by rw [b1]; exact hinit
        have hdu := dispatchUntil_none geomDone rest s1 r0 hs1 b6
        rcases hres : dispatchUntil geomDone s1 r0 rest with res | ⟨s2, acc, rest2⟩
        · have hfz : freeze s0 (b :: rest) = res := by
            simp only [freeze, hdb, hres]
          rw [hfz]
          exact hdu.1 res hres
        · obtain ⟨hs2, hacc⟩ := hdu.2 s2 acc rest2 hres
          have hfz : freeze s0 (b :: rest) = RunResult.returnedOk acc := by
            simp only [freeze, hdb, hres, freezePhase2, hs2]
          rw [hfz]
          exact ⟨hacc, Or.inr rfl⟩

/-- Witness for C5 on the default state (no outputs bound) and a two-batch
schedule. -/
theorem c5_witness :
    noCapture (reqsOfR (freeze base [[], []])) ∧
    (exitCode (freeze base [[], []]) = none ∨ exitCode (freeze base [[], []]) = some 0) :=
  c5_zero_outputs base [[], []] rfl

/-- Counterexample for C5 as stated: with zero outputs the run returns
normally (freeze returns Ok, no request was sent) and the process exit status
is 0, not non-zero. -/
theorem c5_counterexample :
    freeze base [[], []] = RunResult.returnedOk [] ∧
    exitCode (freeze base [[], []]) = some 0 := by
  constructor
  · decide
  · decide

/-- Claim C6 (amended): on a preferred-scale change for output i, the
viewport source rectangle is set to the UNSET SENTINEL (-1, -1, -1, -1), not
to an origin-0 rectangle spanning the logical extent; the destination
rectangle is set to the logical width x height, the layer surface resized to
the logical size, the surface committed, and the scale recorded. -/
theorem c6_viewport_rects (s : AppData) (i scale w h : Int)
    (surfs lsurfs vps : List (Int × Unit)) (ws hs : List (Int × Int))
    (hg : scaleGuard s i scale = Except.ok false)
    (h1 : s.surfaces = some surfs) (h2 : s.layer_surfaces = some lsurfs)
    (h3 : s.viewports = some vps) (h4 : s.widths = some ws) (h5 : s.heights = some hs)
    (h6 : hm_get ws i = some w) (h7 : hm_get hs i = some h)
    (h8 : hm_get vps i = some ()) (h9 : hm_get lsurfs i = some ())
    (h10 : hm_get surfs i = some ()) :
    dispatchEvent s (Ev.preferredScale i scale) =
      Except.ok ({ s with scales := vec_insert s.scales i scale },
        [Req.setSource i (-1) (-1) (-1) (-1), Req.setDestination i w h,
         Req.setSize i w h, Req.commit i]) := by
  simp [dispatchEvent, handlePreferredScale, hg, h1, h2, h3, h4, h5, h6, h7, h8, h9, h10]

/-- Witness for C6 at output 0 with logical size 1920 x 1080 and scale 120. -/
theorem c6_witness :
    dispatchEvent c6state (Ev.preferredScale 0 120) =
      Except.ok ({ c6state with scales := vec_insert c6state.scales 0 120 },
        [Req.setSource 0 (-1) (-1) (-1) (-1), Req.setDestination 0 1920 1080,
         Req.setSize 0 1920 1080, Req.commit 0]) :=
  c6_viewport_rects c6state 0 120 1920 1080 [(0, ())] [(0, ())] [(0, ())]
    [(0, 1920)] [(0, 1080)] rfl rfl rfl rfl rfl rfl rfl rfl rfl rfl rfl

/-- Counterexample for C6 as stated: the emitted source rectangle is the
sentinel (-1, -1, -1, -1); no request sets an origin-0 source rectangle of
1920 x 1080. -/
theorem c6_counterexample :
    batchReqs c6state [Ev.preferredScale 0 120] =
      some [Req.setSource 0 (-1) (-1) (-1) (-1), Req.setDestination 0 1920 1080,
            Req.setSize 0 1920 1080, Req.commit 0] ∧
    Req.setSource 0 0 0 1920 1080 ∉
      [Req.setSource 0 (-1) (-1) (-1) (-1), Req.setDestination 0 1920 1080,
       Req.setSize 0 1920 1080, Req.commit 0] := by
  constructor
  · decide
  · decide

/-- Claim C7: with the compositor bound under registry name 1 and the seat
bound under name 2, a GlobalRemove notice for name 2 leaves the state
unchanged - the seat handle is NOT cleared - because the removal handler is
an if-let ELSE-if-let ladder that only examines the seat when the compositor
is unbound. -/
theorem c7_global_remove_shadowed :
    handleGlobalRemove c7state 2 = c7state ∧ c7state.seat = some 2 := ⟨rfl, rfl⟩

/-- Claim C8: an Escape key press sets the exit flag; a key release leaves
the state unchanged; any pointer button release sets the exit flag; a button
press leaves the state unchanged; and once the exit flag is set, the next
iteration of the terminal loop exits the process with status 0. -/
theorem c8_exit_triggers :
    (∀ (s : AppData) (km : Nat → Nat) (code : Nat),
        s.kbstate = some km → km (code + 8) = escapeKeysym →
        dispatchEvent s (Ev.key code true) = Except.ok ({ s with exit := true }, [])) ∧
    (∀ (s : AppData) (code : Nat),
        dispatchEvent s (Ev.key code false) = Except.ok (s, [])) ∧
    (∀ s : AppData, dispatchEvent s (Ev.button true) = Except.ok ({ s with exit := true }, [])) ∧
    (∀ s : AppData, dispatchEvent s (Ev.button false) = Except.ok (s, [])) ∧
    (∀ (s s' : AppData) (acc r : List Req) (b : List Ev) (rest : List (List Ev)),
        s.exit = true → dispatchBatch s b = Except.ok (s', r) →
        termLoop s acc (b :: rest) = RunResult.exited 0 (acc ++ r)) := by
  refine ⟨?_, ?_, ?_, ?_, ?_⟩
  · intro s km code hkb hesc
    simp [dispatchEvent, handleKey, hkb, hesc]
  · intro s code
    rfl
  · intro s
    rfl
  · intro s
    rfl
  · intro s s' acc r b rest hex hdb
    have hex' : s'.exit = true := (batch_facts b s s' r hdb).2.1 hex
    simp [termLoop, hdb, hex']

/-- Witness for C8: Escape press on keycode 1, key release, button release
and press, and one terminal-loop iteration from an exit-flagged state. -/
theorem c8_witness :
    dispatchEvent c8state (Ev.key 1 true) = Except.ok ({ c8state with exit := true }, []) ∧
    dispatchEvent c8state (Ev.key 1 false) = Except.ok (c8state, []) ∧
    dispatchEvent base (Ev.button true) = Except.ok ({ base with exit := true }, []) ∧
    dispatchEvent base (Ev.button false) = Except.ok (base, []) ∧
    termLoop c8estate [] ([] :: []) = RunResult.exited 0 ([] ++ []) :=
  ⟨c8_exit_triggers.1 c8state kmEsc 1 rfl rfl,
   c8_exit_triggers.2.1 c8state 1,
   c8_exit_triggers.2.2.1 base,
   c8_exit_triggers.2.2.2.1 base,
   c8_exit_triggers.2.2.2.2 c8estate c8estate [] [] [] [] rfl rfl⟩

/-- Claim C9 (amended): over any successfully dispatched trace each readiness
quantity is non-decreasing.  outputs_ready and frames_ready grow by EXACTLY
the number of LogicalSize and Ready events in the trace (the handlers have no
per-output guard), so those two stay within the discovered-output count only
when at most one such event is delivered per output; a duplicate milestone
event pushes them past the count.  The configured-surfaces count DOES keep
the bound: provided its keys start distinct and within 0..output_count-1 (at
freeze start the map is empty) and every configure event targets a created
layer surface (index within 0..output_count-1), the count never exceeds the
discovered-output count, since the insert runs only behind the contains_key
guard. -/
theorem c9_counters (evs : List Ev) (s s' : AppData) (r : List Req)
    (h : dispatchBatch s evs = Except.ok (s', r)) :
    (s.outputs_ready ≤ s'.outputs_ready ∧ s.frames_ready ≤ s'.frames_ready ∧
     s.configured_surfaces.length ≤ s'.configured_surfaces.length) ∧
    s'.outputs_ready = s.outputs_ready + countLogical evs ∧
    s'.frames_ready = s.frames_ready + countReady evs ∧
    (cfgInv s.configured_surfaces s.output_count →
     cfgIdxBounded evs s.output_count →
     0 ≤ s.output_count →
     (s'.configured_surfaces.length : Int) ≤ s.output_count) := by
  obtain ⟨_, _, h3, h4, h5, _, _⟩ := batch_facts evs s s' r h
  obtain ⟨g1, g2⟩ := batch_cfg evs s s' r h
  have hL := countLogical_nonneg evs
  have hR := countReady_nonneg evs
  refine ⟨⟨by omega, by omega, h5⟩, h3, h4, ?_⟩
  intro hinv hbd hn
  exact cfgInv_length_le (g2 hinv hbd) hn

/-- Witness for C9 on a one-configure trace with one discovered output: the
monotone facts, the exact event counts, and the configured-surfaces bound
1 <= 1 with all side conditions discharged. -/
theorem c9_witness :
    ((c9bstate.outputs_ready ≤ c9b2state.outputs_ready ∧
      c9bstate.frames_ready ≤ c9b2state.frames_ready ∧
      c9bstate.configured_surfaces.length ≤ c9b2state.configured_surfaces.length) ∧
     c9b2state.outputs_ready = c9bstate.outputs_ready + countLogical [Ev.configure 0 5] ∧
     c9b2state.frames_ready = c9bstate.frames_ready + countReady [Ev.configure 0 5] ∧
     (c9b2state.configured_surfaces.length : Int) ≤ c9bstate.output_count) := by
  have h := c9_counters [Ev.configure 0 5] c9bstate c9b2state
    [Req.ackConfigure 0 5, Req.commit 0, Req.attach 0, Req.setBufferScale 0 1,
     Req.setBufferTransform 0 0, Req.commit 0] rfl
  refine ⟨h.1, h.2.1, h.2.2.1, h.2.2.2 ?_ ?_ ?_⟩
  · unfold cfgInv
    decide
  · unfold cfgIdxBounded
    decide
  · decide

/-- Counterexample for the bound in C9: with one discovered output, a batch
delivering the LogicalSize event of output 0 twice drives outputs_ready to 2,
past the discovered-output count 1. -/
theorem c9_counterexample :
    batchCounters c9state [Ev.logicalSize 0 100 100, Ev.logicalSize 0 100 100] =
      some (2, 1) ∧ (1 : Int) < 2 := by
  constructor
  · decide
  · decide
